import Mathlib

/-!
# Verification of the MPT session-orchestration core

Shallow embedding of the session state machine of the MPT therapist chatbot
(`server/session-state.ts` and the `/api/chat` handler of `server/routes.ts`,
plus `shared/schema.ts`), together with proofs of the specification claims
about stage ordering, transition gating, liveness, fact extraction and
input validation.

JavaScript semantics relevant here and mirrored below:
* `String.prototype.toLowerCase` / `toUpperCase` case-map both ASCII and
  Cyrillic letters (the only alphabets occurring in the source's data).
* `String.prototype.match` with a non-global regex returns the leftmost
  match; the concrete regexes of the source are compiled into dedicated
  matcher functions with the same leftmost-match, greedy semantics.
* `null` becomes `Option.none`; `number` counters become `Nat`.
-/

namespace MPT

/-! ## Character and string helpers (JS semantics on the alphabets used) -/

/-- `toLowerCase` restricted to the alphabets the source manipulates:
ASCII `A`-`Z` and Cyrillic `А`-`Я` plus `Ё`. Other characters are fixed. -/
def jsToLower (c : Char) : Char :=
  if 'A' ≤ c ∧ c ≤ 'Z' then Char.ofNat (c.toNat + 32)
  else if 'А' ≤ c ∧ c ≤ 'Я' then Char.ofNat (c.toNat + 32)
  else if c = 'Ё' then 'ё'
  else c

/-- `toUpperCase` restricted to the same alphabets. -/
def jsToUpper (c : Char) : Char :=
  if 'a' ≤ c ∧ c ≤ 'z' then Char.ofNat (c.toNat - 32)
  else if 'а' ≤ c ∧ c ≤ 'я' then Char.ofNat (c.toNat - 32)
  else if c = 'ё' then 'Ё'
  else c

/-- Regex `\s` on the whitespace characters that can occur in chat text. -/
def isJsSpace (c : Char) : Bool :=
  c = ' ' || c = '\t' || c = '\n' || c = '\r' || c.toNat = 11 || c.toNat = 12 || c.toNat = 160

/-- Regex `\d`. -/
def isDigit (c : Char) : Bool := '0' ≤ c && c ≤ '9'

/-- Numeric value of a digit character. -/
def digitVal (c : Char) : Nat := c.toNat - '0'.toNat

/-- `message.toLowerCase()`. -/
def lowerStr (s : String) : String := String.mk (s.data.map jsToLower)

/-- Substring occurrence test on character lists (JS `String.prototype.includes`). -/
def hasSubstr (needle : List Char) : List Char → Bool
  | [] => needle.isEmpty
  | c :: t => needle.isPrefixOf (c :: t) || hasSubstr needle t

/-- `s.includes(sub)`. -/
def strIncludes (s sub : String) : Bool := hasSubstr sub.data s.data

/-- Consume a case-insensitive literal (given lower-cased) at the head of `cs`,
returning the rest on success. -/
def litMatchCI : List Char → List Char → Option (List Char)
  | [], cs => some cs
  | _ :: _, [] => none
  | l :: ls, c :: cs => if jsToLower c = l then litMatchCI ls cs else none

/-- Leftmost-match driver: try `tryAt` at every start position left to right,
exactly as a non-global, non-anchored JS regex does. -/
def scanFirst {α : Type} (tryAt : List Char → Option α) : List Char → Option α
  | [] => tryAt []
  | c :: cs =>
    match tryAt (c :: cs) with
    | some x => some x
    | none => scanFirst tryAt cs

/-! ## Stage order and registry (`MPT_STAGE_ORDER`, `MPT_STAGE_CONFIG`) -/

/-- The eleven protocol stages, `type MPTStage` of the source. -/
inductive MPTStage
  | start_session
  | collect_context
  | clarify_request
  | explore_strategy
  | find_need
  | bodywork
  | metaphor
  | meta_position
  | integration
  | plan_actions
  | finish
deriving DecidableEq, BEq, Repr, Fintype

/-- `MPT_STAGE_ORDER`: the fixed total order of stages. -/
def MPT_STAGE_ORDER : List MPTStage :=
  [.start_session, .collect_context, .clarify_request, .explore_strategy,
   .find_need, .bodywork, .metaphor, .meta_position, .integration,
   .plan_actions, .finish]

/-- `StageConfig` of the source restricted to the machine-relevant fields;
`russianName`, `goal`, `questions` and `transitionCriteria` are prose used
only inside generated prompts and documentation. -/
structure StageConfig where
  name : String
  minResponses : Nat
deriving DecidableEq, Repr

/-- `MPT_STAGE_CONFIG`: the per-stage registry (thresholds from the source). -/
def MPT_STAGE_CONFIG : MPTStage → StageConfig
  | .start_session => { name := "start_session", minResponses := 1 }
  | .collect_context => { name := "collect_context", minResponses := 2 }
  | .clarify_request => { name := "clarify_request", minResponses := 3 }
  | .explore_strategy => { name := "explore_strategy", minResponses := 3 }
  | .find_need => { name := "find_need", minResponses := 3 }
  | .bodywork => { name := "bodywork", minResponses := 4 }
  | .metaphor => { name := "metaphor", minResponses := 3 }
  | .meta_position => { name := "meta_position", minResponses := 3 }
  | .integration => { name := "integration", minResponses := 3 }
  | .plan_actions => { name := "plan_actions", minResponses := 2 }
  | .finish => { name := "finish", minResponses := 1 }

/-! ## Therapy context and session state (`shared/schema.ts`, `session-state.ts`) -/

structure RequestClarification where
  isPositive : Option Bool
  hasAuthorship : Option Bool
  isConcrete : Option Bool
  isRealistic : Option Bool
  motivationChecked : Option Bool
  clarifiedRequest : Option String
deriving DecidableEq, Repr

structure BodyworkData where
  location : Option String
  size : Option String
  shape : Option String
  density : Option String
  temperature : Option String
  movement : Option String
  impulse : Option String
deriving DecidableEq, Repr

structure MetaphorData where
  image : Option String
  qualities : Option String
  energyLevel : Option Nat
deriving DecidableEq, Repr

structure MetaPositionData where
  viewOfSelf : Option String
  viewOfLife : Option String
  viewOfStrategy : Option String
  insight : Option String
  messageFromImage : Option String
deriving DecidableEq, Repr

structure IntegrationData where
  newFeeling : Option String
  movementDone : Bool
  integratedState : Option String
deriving DecidableEq, Repr

structure TherapyContext where
  clientName : Option String
  currentGoal : Option String
  originalRequest : Option String
  clarifiedRequest : Option String
  currentStrategy : Option String
  strategyIntention : Option String
  deepNeed : Option String
  bodyLocation : Option String
  metaphor : Option String
  energyLevel : Option Nat
  newActions : List String
  firstStep : Option String
  homework : Option String
  stageData : List (String × String)
  requestClarification : RequestClarification
  bodyworkData : BodyworkData
  metaphorData : MetaphorData
  metaPositionData : MetaPositionData
  integrationData : IntegrationData
deriving DecidableEq, Repr

/-- `type RequestType` of the source. -/
inductive RequestType
  | fear_anxiety
  | procrastination
  | relationships
  | self_worth
  | burnout
  | lost_desires
  | role_conflict
  | resistance
  | trauma
  | identity
  | psychosomatic
  | general
deriving DecidableEq, BEq, Repr

structure SessionState where
  currentStage : MPTStage
  stageResponseCount : Nat
  currentQuestionIndex : Nat
  stageHistory : List MPTStage
  context : TherapyContext
  requestType : Option RequestType
  importanceRating : Option Nat
  lastClientResponse : String
  clientSaysIDontKnow : Bool
  movementOffered : Bool
  integrationComplete : Bool
  sessionStarted : Bool
  sessionComplete : Bool
deriving DecidableEq, Repr

/-! ## Category classifier (`REQUEST_TYPE_KEYWORDS`, `detectRequestType`) -/

/-- `REQUEST_TYPE_KEYWORDS` in object-literal insertion order, which is the
iteration order of `Object.entries` in the source. -/
def REQUEST_TYPE_KEYWORDS : List (RequestType × List String) :=
  [(.fear_anxiety,
    ["страх", "боюсь", "тревога", "паника", "волнуюсь", "страшно",
     "фобия", "беспокойство", "навязчивые мысли", "тревожусь", "переживаю",
     "ужас", "опасаюсь", "боязнь"]),
   (.procrastination,
    ["прокрастинация", "откладываю", "не могу начать", "тяну время",
     "не могу заставить себя", "всё время откладываю", "никак не начну",
     "затягиваю", "медлю"]),
   (.relationships,
    ["отношения", "партнер", "муж", "жена", "девушка", "парень", "брак",
     "любовь", "расставание", "развод", "ссоры", "конфликты в паре",
     "не понимаем друг друга", "разрыв", "измена", "ревность"]),
   (.self_worth,
    ["самооценка", "не уверен в себе", "неуверенность", "не достоин",
     "не заслуживаю", "чувствую себя никчемным", "самоценность",
     "не ценю себя", "низкая самооценка", "комплексы"]),
   (.burnout,
    ["выгорание", "устал", "нет сил", "апатия", "энергии нет",
     "истощение", "опустошен", "выжат", "burnout", "перегорел",
     "нет мотивации", "всё надоело"]),
   (.lost_desires,
    ["не знаю чего хочу", "потерял желания", "ничего не хочу",
     "нет целей", "нет смысла", "не понимаю что хочу",
     "потерял интерес", "всё равно"]),
   (.role_conflict,
    ["конфликт ролей", "не могу выбрать", "разрываюсь", "противоречие",
     "две части", "хочу и не хочу", "должен но не хочу",
     "внутренний конфликт"]),
   (.resistance,
    ["сопротивление", "не хочется", "заставляю себя", "нет мотивации",
     "саботирую", "мешаю себе", "не могу себя заставить"]),
   (.trauma,
    ["травма", "детство", "родители", "обида", "прошлое", "воспоминания",
     "больно", "не отпускает", "токсичные", "насилие", "жестокость"]),
   (.identity,
    ["кто я", "не знаю себя", "потерял себя", "смысл жизни", "предназначение",
     "идентичность", "самоопределение", "кризис", "не понимаю себя"]),
   (.psychosomatic,
    ["болит", "тело", "психосоматика", "симптом", "здоровье", "напряжение",
     "зажим", "блок", "спина", "голова", "живот", "грудь", "горло"]),
   (.general, [])]

/-- Inner loop of `detectRequestType`: first non-`general` category one of
whose keywords occurs in the lower-cased message. -/
def detectRequestTypeGo (lowerMessage : String) :
    List (RequestType × List String) → RequestType
  | [] => .general
  | (t, keywords) :: rest =>
    if t = .general then detectRequestTypeGo lowerMessage rest
    else if keywords.any (fun keyword => strIncludes lowerMessage keyword) then t
    else detectRequestTypeGo lowerMessage rest

/-- `detectRequestType`. -/
def detectRequestType (message : String) : RequestType :=
  detectRequestTypeGo (lowerStr message) REQUEST_TYPE_KEYWORDS

/-! ## Evasion detector (`detectClientSaysIDontKnow`) -/

/-- `detectClientSaysIDontKnow`: fixed phrase list, substring match on the
lower-cased message. -/
def detectClientSaysIDontKnow (message : String) : Bool :=
  let patterns : List String :=
    ["не знаю", "не понимаю", "не чувствую", "не могу ответить",
     "затрудняюсь", "не уверен", "не ощущаю", "не вижу", "непонятно",
     "сложно сказать", "не могу сформулировать"]
  let lowerMessage := lowerStr message
  patterns.any (fun pattern => strIncludes lowerMessage pattern)

/-! ## Importance-rating extractor (`extractImportanceRating`)

The source tries four regexes in order; for each matching regex it parses
capture group 1 and returns it when it lies in `[1,10]`, otherwise it falls
through to the next regex. -/

/-- Tail of regex 1 after the captured digits: `\s*(из|\/)\s*10`. -/
def p1Tail (cs : List Char) : Bool :=
  let cs := cs.dropWhile isJsSpace
  let afterSep : Option (List Char) :=
    match cs with
    | c1 :: c2 :: r =>
      if jsToLower c1 = 'и' ∧ jsToLower c2 = 'з' then some r
      else if c1 = '/' then some (c2 :: r) else none
    | [c1] => if c1 = '/' then some [] else none
    | [] => none
  match afterSep with
  | some r =>
    match r.dropWhile isJsSpace with
    | '1' :: '0' :: _ => true
    | _ => false
  | none => false

/-- Regex 1, `/(\d{1,2})\s*(из|\/)\s*10/i`, tried at one start position;
`\d{1,2}` is greedy, so two digits are preferred over one. -/
def tryRating1At : List Char → Option Nat
  | [] => none
  | c0 :: rest =>
    if isDigit c0 then
      match rest with
      | c1 :: rest2 =>
        if isDigit c1 then
          if p1Tail rest2 then some (10 * digitVal c0 + digitVal c1)
          else if p1Tail rest then some (digitVal c0)
          else none
        else if p1Tail rest then some (digitVal c0) else none
      | [] => none
    else none

/-- Capture `(\d{1,2})` greedily at the head of `cs`. -/
def captureDigits12 : List Char → Option Nat
  | [] => none
  | d0 :: ds =>
    if isDigit d0 then
      match ds with
      | d1 :: _ =>
        if isDigit d1 then some (10 * digitVal d0 + digitVal d1)
        else some (digitVal d0)
      | [] => some (digitVal d0)
    else none

/-- Regex 2, `/на\s*(\d{1,2})/i`, tried at one start position. -/
def tryRating2At : List Char → Option Nat
  | c0 :: c1 :: rest =>
    if jsToLower c0 = 'н' ∧ jsToLower c1 = 'а' then
      captureDigits12 (rest.dropWhile isJsSpace)
    else none
  | _ => none

/-- Regex 3, `/оцениваю[^\d]*(\d{1,2})/i`, tried at one start position;
greedy `[^\d]*` followed by `\d` stops exactly at the first digit. -/
def tryRating3At (cs : List Char) : Option Nat :=
  (litMatchCI "оцениваю".data cs).bind fun rest =>
    captureDigits12 (rest.dropWhile (fun c => !isDigit c))

/-- Regex 4, `/^(\d{1,2})$/`: the whole message is one or two digits. -/
def tryRating4 : List Char → Option Nat
  | [d0] => if isDigit d0 then some (digitVal d0) else none
  | [d0, d1] =>
    if isDigit d0 && isDigit d1 then some (10 * digitVal d0 + digitVal d1)
    else none
  | _ => none

/-- The `match` result of each of the four patterns, in source order
(`parseInt` of capture group 1 of the leftmost match). -/
def ratingPatternResults (message : String) : List (Option Nat) :=
  [scanFirst tryRating1At message.data,
   scanFirst tryRating2At message.data,
   scanFirst tryRating3At message.data,
   tryRating4 message.data]

/-- The `for`-loop of `extractImportanceRating`: first match whose value
lies in `[1,10]`; an out-of-range match falls through to the next pattern. -/
def ratingLoop : List (Option Nat) → Option Nat
  | [] => none
  | none :: rest => ratingLoop rest
  | some num :: rest =>
    if 1 ≤ num ∧ num ≤ 10 then some num else ratingLoop rest

/-- `extractImportanceRating`. -/
def extractImportanceRating (message : String) : Option Nat :=
  ratingLoop (ratingPatternResults message)

/-! ## Name extractor (`extractClientName`) -/

/-- The character class `[а-яёА-ЯЁa-zA-Z]` of the name regexes. -/
def isNameChar (c : Char) : Bool :=
  ('а' ≤ c && c ≤ 'я') || ('А' ≤ c && c ≤ 'Я') || c = 'ё' || c = 'Ё' ||
  ('a' ≤ c && c ≤ 'z') || ('A' ≤ c && c ≤ 'Z')

/-- Capture `([а-яёА-ЯЁa-zA-Z]+)` greedily at the head of `cs`. -/
def captureLetters (cs : List Char) : Option (List Char) :=
  let run := cs.takeWhile isNameChar
  if run.isEmpty then none else some run

/-- `/меня зовут ([а-яёА-ЯЁa-zA-Z]+)/i` at one start position. -/
def tryName1At (cs : List Char) : Option (List Char) :=
  (litMatchCI "меня зовут ".data cs).bind captureLetters

/-- `/зови меня ([а-яёА-ЯЁa-zA-Z]+)/i` at one start position. -/
def tryName2At (cs : List Char) : Option (List Char) :=
  (litMatchCI "зови меня ".data cs).bind captureLetters

/-- `/можешь звать меня ([а-яёА-ЯЁa-zA-Z]+)/i` at one start position. -/
def tryName3At (cs : List Char) : Option (List Char) :=
  (litMatchCI "можешь звать меня ".data cs).bind captureLetters

/-- `/моё? имя ([а-яёА-ЯЁa-zA-Z]+)/i` at one start position: greedy `ё?`
first consumes an `ё` when present, backtracking if the rest then fails. -/
def tryName4At (cs : List Char) : Option (List Char) :=
  (litMatchCI "мо".data cs).bind fun rest =>
    match rest with
    | c :: rest2 =>
      if jsToLower c = 'ё' then
        match (litMatchCI " имя ".data rest2).bind captureLetters with
        | some cap => some cap
        | none => (litMatchCI " имя ".data rest).bind captureLetters
      else (litMatchCI " имя ".data rest).bind captureLetters
    | [] => none

/-- `/имя[:\s]+([а-яёА-ЯЁa-zA-Z]+)/i` at one start position; the greedy
`[:\s]+` is safe because name characters are neither `:` nor whitespace. -/
def tryName5At (cs : List Char) : Option (List Char) :=
  (litMatchCI "имя".data cs).bind fun rest =>
    let isSep : Char → Bool := fun c => c = ':' || isJsSpace c
    if (rest.takeWhile isSep).isEmpty then none
    else captureLetters (rest.dropWhile isSep)

/-- `/я — ([а-яёА-ЯЁa-zA-Z]+)/i` at one start position. -/
def tryName6At (cs : List Char) : Option (List Char) :=
  (litMatchCI "я — ".data cs).bind captureLetters

/-- Tail `\s+я ([а-яёА-ЯЁa-zA-Z]+)` of regex 7. -/
def name7Tail (cs : List Char) : Option (List Char) :=
  if (cs.takeWhile isJsSpace).isEmpty then none
  else (litMatchCI "я ".data (cs.dropWhile isJsSpace)).bind captureLetters

/-- `/привет,?\s+я ([а-яёА-ЯЁa-zA-Z]+)/i` at one start position: greedy
`,?` first consumes a comma when present, backtracking if the rest fails. -/
def tryName7At (cs : List Char) : Option (List Char) :=
  (litMatchCI "привет".data cs).bind fun rest =>
    match rest with
    | ',' :: r =>
      match name7Tail r with
      | some cap => some cap
      | none => name7Tail rest
    | _ => name7Tail rest

/-- The seven `patterns` of `extractClientName`, in source order, each as its
leftmost-match capture on a message body. -/
def namePatternResults (cs : List Char) : List (Option (List Char)) :=
  [scanFirst tryName1At cs, scanFirst tryName2At cs, scanFirst tryName3At cs,
   scanFirst tryName4At cs, scanFirst tryName5At cs, scanFirst tryName6At cs,
   scanFirst tryName7At cs]

/-- The `stopWords` list of `extractClientName`. -/
def stopWords : List String :=
  ["я", "мне", "меня", "мой", "моя", "моё", "это", "что", "как", "так",
   "хочу", "могу", "буду", "должен", "чувствую", "думаю", "понимаю",
   "знаю", "вижу", "слышу", "делаю", "говорю", "считаю", "помню",
   "люблю", "ненавижу", "боюсь", "хотел", "была", "был", "есть",
   "тоже", "очень", "просто", "тут", "там", "здесь", "сейчас",
   "всегда", "никогда", "иногда", "часто", "редко", "давно",
   "рад", "рада", "готов", "готова", "согласен", "согласна"]

/-- `match[1].charAt(0).toUpperCase() + match[1].slice(1).toLowerCase()`. -/
def capitalizeName : List Char → List Char
  | [] => []
  | c :: rest => jsToUpper c :: rest.map jsToLower

/-- Inner pattern loop of `extractClientName` on one message: the first
pattern whose capture has length 2-20 and is not a stop word yields the
capitalized name; invalid or stop-word captures fall through. -/
def nameLoop : List (Option (List Char)) → Option String
  | [] => none
  | none :: rest => nameLoop rest
  | some cap :: rest =>
    if 2 ≤ cap.length ∧ cap.length ≤ 20 then
      let name := String.mk (capitalizeName cap)
      if stopWords.contains (lowerStr name) then nameLoop rest else some name
    else nameLoop rest

/-- Name extraction from a single message body. -/
def nameFromContent (content : String) : Option String :=
  nameLoop (namePatternResults content.data)

/-- A chat message as passed to `extractClientName` (`role`, `content`). -/
structure Message where
  role : String
  content : String
deriving DecidableEq, Repr

/-- `extractClientName`: first user message, in chronological order, whose
content yields a valid name. -/
def extractClientName : List Message → Option String
  | [] => none
  | msg :: rest =>
    if msg.role = "user" then
      match nameFromContent msg.content with
      | some name => some name
      | none => extractClientName rest
    else extractClientName rest

/-! ## Transition evaluator and transition action -/

/-- `shouldTransitionToNextStage`: minimum-response gate, then the per-stage
readiness predicate of the source's `switch`. -/
def shouldTransitionToNextStage (state : SessionState) : Bool :=
  let config := MPT_STAGE_CONFIG state.currentStage
  if state.stageResponseCount < config.minResponses then false
  else
    match state.currentStage with
    | .start_session => state.context.originalRequest.isSome
    | .collect_context =>
      state.importanceRating.isSome || decide (3 ≤ state.stageResponseCount)
    | .clarify_request =>
      state.context.clarifiedRequest.isSome || decide (4 ≤ state.stageResponseCount)
    | .explore_strategy =>
      state.context.currentStrategy.isSome || decide (3 ≤ state.stageResponseCount)
    | .find_need =>
      state.context.deepNeed.isSome || decide (4 ≤ state.stageResponseCount)
    | .bodywork =>
      state.context.bodyLocation.isSome || decide (4 ≤ state.stageResponseCount)
    | .metaphor =>
      state.context.metaphor.isSome || decide (3 ≤ state.stageResponseCount)
    | .meta_position =>
      state.context.metaPositionData.insight.isSome || decide (3 ≤ state.stageResponseCount)
    | .integration =>
      state.integrationComplete || decide (3 ≤ state.stageResponseCount)
    | .plan_actions =>
      state.context.firstStep.isSome || decide (3 ≤ state.stageResponseCount)
    | .finish => decide (2 ≤ state.stageResponseCount)

/-- `getNextStage`: successor in `MPT_STAGE_ORDER`, `none` at the end (the
source's `-1` guard is unreachable since every stage occurs in the order). -/
def getNextStage (currentStage : MPTStage) : Option MPTStage :=
  let currentIndex := MPT_STAGE_ORDER.indexOf currentStage
  if MPT_STAGE_ORDER.length - 1 ≤ currentIndex then none
  else MPT_STAGE_ORDER.get? (currentIndex + 1)

/-- `transitionToNextStage`. -/
def transitionToNextStage (state : SessionState) : SessionState :=
  match getNextStage state.currentStage with
  | none => { state with sessionComplete := true }
  | some nextStage =>
    { state with
      currentStage := nextStage
      stageResponseCount := 0
      currentQuestionIndex := 0
      stageHistory := state.stageHistory ++ [state.currentStage] }

/-- `createInitialSessionState`. -/
def createInitialSessionState : SessionState :=
  { currentStage := .start_session
    stageResponseCount := 0
    currentQuestionIndex := 0
    stageHistory := []
    context :=
      { clientName := none
        currentGoal := none
        originalRequest := none
        clarifiedRequest := none
        currentStrategy := none
        strategyIntention := none
        deepNeed := none
        bodyLocation := none
        metaphor := none
        energyLevel := none
        newActions := []
        firstStep := none
        homework := none
        stageData := []
        requestClarification :=
          { isPositive := none, hasAuthorship := none, isConcrete := none,
            isRealistic := none, motivationChecked := none, clarifiedRequest := none }
        bodyworkData :=
          { location := none, size := none, shape := none, density := none,
            temperature := none, movement := none, impulse := none }
        metaphorData := { image := none, qualities := none, energyLevel := none }
        metaPositionData :=
          { viewOfSelf := none, viewOfLife := none, viewOfStrategy := none,
            insight := none, messageFromImage := none }
        integrationData :=
          { newFeeling := none, movementDone := false, integratedState := none } }
    requestType := none
    importanceRating := none
    lastClientResponse := ""
    clientSaysIDontKnow := false
    movementOffered := false
    integrationComplete := false
    sessionStarted := false
    sessionComplete := false }

/-! ## The `/api/chat` turn (`registerRoutes`, state-mutating portion)

The handler validates the request, creates a session on first contact,
appends the user message, updates the session state, and — after the
externally generated reply — appends the assistant message.  Prompt
composition, scenario/script selection and bot-mode tracking read but never
write `SessionState` and are not modelled. -/

/-- A live session: message log plus FSM state (the `sessions` and
`sessionStates` maps are updated in lockstep and are modelled jointly). -/
structure ChatSession where
  messages : List Message
  state : SessionState
deriving DecidableEq, Repr

/-- New-session branch of `/api/chat`: fresh state with the detected request
type, the first message as original request, and `sessionStarted` set. -/
def newSessionState (message : String) : SessionState :=
  let initialState := createInitialSessionState
  { initialState with
      requestType := some (detectRequestType message)
      context := { initialState.context with originalRequest := some message }
      sessionStarted := true }

/-- `lastClientResponse` / `clientSaysIDontKnow` / `stageResponseCount++`. -/
def recordResponse (state : SessionState) (message : String) : SessionState :=
  { state with
      lastClientResponse := message
      clientSaysIDontKnow := detectClientSaysIDontKnow message
      stageResponseCount := state.stageResponseCount + 1 }

/-- `if (clientName) sessionState.context.clientName = clientName`
(extracted names are 2-20 characters, so JS truthiness is `isSome`). -/
def mergeClientName (state : SessionState) (messages : List Message) : SessionState :=
  match extractClientName messages with
  | some clientName =>
    { state with context := { state.context with clientName := some clientName } }
  | none => state

/-- `if (importanceRating !== null) sessionState.importanceRating = ...`. -/
def mergeImportanceRating (state : SessionState) (message : String) : SessionState :=
  match extractImportanceRating message with
  | some importanceRating => { state with importanceRating := some importanceRating }
  | none => state

/-- `if (shouldTransitionToNextStage(state)) state = transitionToNextStage(state)`. -/
def maybeTransition (state : SessionState) : SessionState :=
  if shouldTransitionToNextStage state then transitionToNextStage state else state

/-- One user turn on an existing session: push the user message, then the
state updates of the handler in source order. -/
def applyTurn (sess : ChatSession) (message : String) : ChatSession :=
  let messages := sess.messages ++ [{ role := "user", content := message }]
  let state := recordResponse sess.state message
  let state := mergeClientName state messages
  let state := mergeImportanceRating state message
  let state := maybeTransition state
  { messages := messages, state := state }

/-- The assistant reply appended after the external generation call. -/
def appendAssistantReply (sess : ChatSession) (reply : String) : ChatSession :=
  { sess with messages := sess.messages ++ [{ role := "assistant", content := reply }] }

/-- A full `/api/chat` turn: create the session when absent, process the
user turn, append the (externally produced) assistant reply. -/
def processChatTurn (store : Option ChatSession) (message reply : String) : ChatSession :=
  let sess :=
    match store with
    | some s => s
    | none => { messages := [], state := newSessionState message }
  appendAssistantReply (applyTurn sess message) reply

/-- A session freshly created by `/api/sessions/new` (no message yet). -/
def newEmptySession : ChatSession :=
  { messages := [], state := createInitialSessionState }

/-- A sequence of `/api/chat` turns against one session slot. -/
def runTurns (start : Option ChatSession) (turns : List (String × String)) :
    Option ChatSession :=
  turns.foldl (fun store t => some (processChatTurn store t.1 t.2)) start

/-! ## Request validation (`chatRequestSchema` and transport bound) -/

/-- `chatRequestSchema`: `message: z.string().min(1)`. -/
def chatRequestMessageValid (message : String) : Bool := 1 ≤ message.length

/-- Modelled from the spec: the "reasonable size bound" on a turn is the
Express JSON body limit, raised to 50 MB per the repository notes ("Increased
body size limit to 50MB for large text messages"); the server entry point
configuring the middleware is not among the provided sources. -/
def MAX_BODY_BYTES : Nat := 50 * 1024 * 1024

/-- Modelled from the spec: the body-parser accepts the request only when
the payload fits the 50 MB limit. -/
def bodyWithinSizeLimit (message : String) : Bool :=
  message.utf8ByteSize ≤ MAX_BODY_BYTES

/-- Outcome of an `/api/chat` request. -/
inductive ChatOutcome
  | rejected (error : String)
  | ok
deriving DecidableEq, Repr

/-- `/api/chat` including validation: an oversized body is rejected by the
middleware (HTTP 413), an empty message by `chatRequestSchema` (HTTP 400);
in both cases the handler returns before touching any session state. -/
def handleChatRequest (store : Option ChatSession) (message reply : String) :
    Option ChatSession × ChatOutcome :=
  if ¬ bodyWithinSizeLimit message then (store, .rejected "PayloadTooLarge")
  else if ¬ chatRequestMessageValid message then (store, .rejected "Invalid request")
  else (some (processChatTurn store message reply), .ok)

/-! ## Derived notions used by the claims -/

/-- Position of a stage in the fixed total order. -/
def stageIndex (stage : MPTStage) : Nat := MPT_STAGE_ORDER.indexOf stage

/-- The stage a session slot is in before a turn is processed (a new session
starts at the first stage). -/
def stageBefore (store : Option ChatSession) : MPTStage :=
  match store with
  | some s => s.state.currentStage
  | none => createInitialSessionState.currentStage

/-- The per-stage turn-count ceilings appearing in the readiness `switch` of
`shouldTransitionToNextStage` (safety valve of the two-tier design).
`start_session` and `finish` have no ceiling branch and are given `0`. -/
def stageCeiling : MPTStage → Nat
  | .start_session => 0
  | .collect_context => 3
  | .clarify_request => 4
  | .explore_strategy => 3
  | .find_need => 4
  | .bodywork => 4
  | .metaphor => 3
  | .meta_position => 3
  | .integration => 3
  | .plan_actions => 3
  | .finish => 0

/-- The stages whose readiness predicate tests a target fact, plus
`integration` (flag-tested): the stages covered by the liveness claim. -/
def ceilingStages : List MPTStage :=
  [.collect_context, .clarify_request, .explore_strategy, .find_need,
   .bodywork, .metaphor, .meta_position, .integration, .plan_actions]

/-- The stages whose readiness predicate tests one of the never-written
context fields. -/
def factOnlyStages : List MPTStage :=
  [.clarify_request, .explore_strategy, .find_need, .bodywork,
   .metaphor, .meta_position, .plan_actions]

/-! ## Basic lemmas about the transition machinery -/

lemma getNextStage_index : ∀ c n : MPTStage, getNextStage c = some n →
    stageIndex n = stageIndex c + 1 := by decide

lemma transitionToNextStage_context (st : SessionState) :
    (transitionToNextStage st).context = st.context := by
  unfold transitionToNextStage
  cases getNextStage st.currentStage <;> rfl

lemma maybeTransition_context (st : SessionState) :
    (maybeTransition st).context = st.context := by
  unfold maybeTransition
  split
  · exact transitionToNextStage_context st
  · rfl

lemma mergeClientName_currentStage (st : SessionState) (ms : List Message) :
    (mergeClientName st ms).currentStage = st.currentStage := by
  unfold mergeClientName
  cases extractClientName ms <;> rfl

lemma mergeImportanceRating_currentStage (st : SessionState) (m : String) :
    (mergeImportanceRating st m).currentStage = st.currentStage := by
  unfold mergeImportanceRating
  cases extractImportanceRating m <;> rfl

lemma mergeImportanceRating_context (st : SessionState) (m : String) :
    (mergeImportanceRating st m).context = st.context := by
  unfold mergeImportanceRating
  cases extractImportanceRating m <;> rfl

lemma maybeTransition_stage (st : SessionState) :
    (maybeTransition st).currentStage = st.currentStage ∨
    stageIndex (maybeTransition st).currentStage = stageIndex st.currentStage + 1 := by
  unfold maybeTransition
  split
  · rcases hn : getNextStage st.currentStage with _ | n
    · left
      simp [transitionToNextStage, hn]
    · right
      simp only [transitionToNextStage, hn]
      exact getNextStage_index _ _ hn
  · left
    rfl

lemma applyTurn_state (sess : ChatSession) (m : String) :
    (applyTurn sess m).state =
      maybeTransition (mergeImportanceRating
        (mergeClientName (recordResponse sess.state m)
          (sess.messages ++ [{ role := "user", content := m }])) m) := rfl

/-! ## Claim theorems: transition evaluator -/

/-- Claim C2: whenever the response count at the current stage is strictly
below that stage's `minResponses` threshold, `shouldTransitionToNextStage`
returns `false`, regardless of the accumulated context, rating or flags. -/
theorem claim_C2_min_response_gate (st : SessionState)
    (h : st.stageResponseCount < (MPT_STAGE_CONFIG st.currentStage).minResponses) :
    shouldTransitionToNextStage st = false := by
  unfold shouldTransitionToNextStage
  simp only [if_pos h]

/-- Witness for C2 at the freshly created session (count 0, minimum 1). -/
theorem claim_C2_min_response_gate_witness :
    createInitialSessionState.stageResponseCount <
      (MPT_STAGE_CONFIG createInitialSessionState.currentStage).minResponses ∧
    shouldTransitionToNextStage createInitialSessionState = false :=
  ⟨by decide, claim_C2_min_response_gate createInitialSessionState (by decide)⟩

/-- Claim C3 (liveness): at every stage with a target fact and at
`integration`, once the response count has reached that stage's turn-count
ceiling, `shouldTransitionToNextStage` returns `true` — in particular even
when the target fact is still null or the integration flag still false. -/
theorem claim_C3_ceiling_liveness (st : SessionState)
    (hmem : st.currentStage ∈ ceilingStages)
    (hceil : stageCeiling st.currentStage ≤ st.stageResponseCount) :
    shouldTransitionToNextStage st = true := by
  rcases st with ⟨stage, count, qi, hist, ctx, rt, ir, lcr, idk, mo, ic, ss, sc⟩
  simp only [ceilingStages, List.mem_cons, List.not_mem_nil, or_false] at hmem
  simp only [stageCeiling] at hceil
  rcases hmem with h | h | h | h | h | h | h | h | h <;> subst h <;>
    simp only [shouldTransitionToNextStage, MPT_STAGE_CONFIG] at hceil ⊢ <;>
    rw [if_neg (by omega)] <;>
    simp [decide_eq_true hceil]

/-- Witness for C3 at `collect_context` with count at the ceiling 3 and no
importance rating extracted. -/
theorem claim_C3_ceiling_liveness_witness :
    shouldTransitionToNextStage
      { createInitialSessionState with
          currentStage := .collect_context, stageResponseCount := 3 } = true :=
  claim_C3_ceiling_liveness _ (by simp [ceilingStages]) (by decide)

/-- Claim C4 counterexample: at `finish` the registry minimum is 1, yet with
exactly one response (the minimum met) `shouldTransitionToNextStage` still
returns `false` — the readiness predicate of `finish` demands two. -/
theorem claim_C4_counterexample :
    (MPT_STAGE_CONFIG MPTStage.finish).minResponses = 1 ∧
    shouldTransitionToNextStage
      { createInitialSessionState with
          currentStage := MPTStage.finish, stageResponseCount := 1 } = false := by
  constructor
  · rfl
  · decide

/-- Claim C4 as amended: at `finish`, `shouldTransitionToNextStage` returns
`true` exactly when the response count is at least 2 — one more response
than the registry minimum of 1. -/
theorem claim_C4_amended (st : SessionState) (h : st.currentStage = .finish) :
    shouldTransitionToNextStage st = true ↔ 2 ≤ st.stageResponseCount := by
  rcases st with ⟨stage, count, qi, hist, ctx, rt, ir, lcr, idk, mo, ic, ss, sc⟩
  simp only at h
  subst h
  simp only [shouldTransitionToNextStage, MPT_STAGE_CONFIG]
  rcases Nat.lt_or_ge count 1 with hc | hc
  · rw [if_pos hc]
    simp only [Bool.false_eq_true, false_iff]
    omega
  · rw [if_neg (by omega)]
    simp only [decide_eq_true_eq]

/-- Witness for the amended C4: two responses at `finish` do advance. -/
theorem claim_C4_amended_witness :
    shouldTransitionToNextStage
      { createInitialSessionState with
          currentStage := MPTStage.finish, stageResponseCount := 2 } = true :=
  (claim_C4_amended _ rfl).mpr (by decide)

/-- Claim C5: applying the transition action at `finish` only sets
`sessionComplete`; the stage stays `finish`, nothing is appended to the
history, the counter is not reset, and every other field is unchanged. -/
theorem claim_C5_finish_transition_noop (st : SessionState)
    (h : st.currentStage = .finish) :
    transitionToNextStage st = { st with sessionComplete := true } := by
  have hnext : getNextStage st.currentStage = none := by
    rw [h]
    decide
  unfold transitionToNextStage
  rw [hnext]

/-- Witness for C5 at a concrete `finish`-stage state. -/
theorem claim_C5_finish_transition_noop_witness :
    transitionToNextStage
        { createInitialSessionState with currentStage := MPTStage.finish } =
      { createInitialSessionState with
          currentStage := MPTStage.finish, sessionComplete := true } :=
  claim_C5_finish_transition_noop _ rfl

/-- Claim C1: over one processed `/api/chat` turn the session's stage either
stays the same or moves to the immediate successor in the fixed total order:
the observed stage never moves backward and never skips a step, hence it is
non-decreasing over every sequence of turns. -/
theorem claim_C1_stage_monotone_step (store : Option ChatSession) (message reply : String) :
    (processChatTurn store message reply).state.currentStage = stageBefore store ∨
    stageIndex (processChatTurn store message reply).state.currentStage =
      stageIndex (stageBefore store) + 1 := by
  have hsess : ∃ sess : ChatSession, sess.state.currentStage = stageBefore store ∧
      processChatTurn store message reply = appendAssistantReply (applyTurn sess message) reply := by
    cases store with
    | none => exact ⟨_, rfl, rfl⟩
    | some s => exact ⟨s, rfl, rfl⟩
  obtain ⟨sess, hbefore, heq⟩ := hsess
  rw [heq]
  have hstate : (appendAssistantReply (applyTurn sess message) reply).state =
      (applyTurn sess message).state := rfl
  rw [hstate, applyTurn_state]
  rw [← hbefore]
  have hmid : (mergeImportanceRating
      (mergeClientName (recordResponse sess.state message)
        (sess.messages ++ [{ role := "user", content := message }])) message).currentStage =
      sess.state.currentStage := by
    rw [mergeImportanceRating_currentStage, mergeClientName_currentStage]
    rfl
  rw [← hmid]
  exact maybeTransition_stage _

/-! ## Claim C6: the extracted client name is stable once set -/

/-- Extending the message history never changes an already successful name
extraction: the first satisfying pattern in the first satisfying message
wins, and earlier messages are untouched by appends. -/
lemma extractClientName_append (ms ext : List Message) (n : String)
    (h : extractClientName ms = some n) :
    extractClientName (ms ++ ext) = some n := by
  induction ms with
  | nil => simp [extractClientName] at h
  | cons msg rest ih =>
    rw [List.cons_append]
    unfold extractClientName at h ⊢
    by_cases hr : msg.role = "user"
    · rw [if_pos hr] at h ⊢
      cases hnc : nameFromContent msg.content with
      | some x => rw [hnc] at h; exact h
      | none => rw [hnc] at h; exact ih h
    · rw [if_neg hr] at h ⊢
      exact ih h

/-- Linking invariant: a populated `clientName` always equals the extractor's
result on the current message history. -/
def clientNameTracked (sess : ChatSession) : Prop :=
  ∀ n, sess.state.context.clientName = some n → extractClientName sess.messages = some n

/-- Store-level version of `clientNameTracked`. -/
def storeTracked (store : Option ChatSession) : Prop :=
  ∀ sess, store = some sess → clientNameTracked sess

lemma mergeClientName_clientName (st : SessionState) (ms : List Message) :
    (mergeClientName st ms).context.clientName =
      match extractClientName ms with
      | some x => some x
      | none => st.context.clientName := by
  unfold mergeClientName
  cases extractClientName ms <;> rfl

/-- One `/api/chat` turn preserves the linking invariant and preserves the
value of an already populated `clientName`. -/
lemma processChatTurn_clientName (store : Option ChatSession) (m r : String)
    (h : storeTracked store) :
    clientNameTracked (processChatTurn store m r) ∧
    (∀ sess n, store = some sess → sess.state.context.clientName = some n →
      (processChatTurn store m r).state.context.clientName = some n) := by
  have hsess : ∃ sess : ChatSession, processChatTurn store m r =
      appendAssistantReply (applyTurn sess m) r ∧
      (∀ n, sess.state.context.clientName = some n →
        extractClientName sess.messages = some n) ∧
      (∀ sess' n, store = some sess' → sess'.state.context.clientName = some n →
        sess.state.context.clientName = some n) := by
    cases store with
    | none =>
      refine ⟨{ messages := [], state := newSessionState m }, rfl, ?_, ?_⟩
      · intro n hn
        simp [newSessionState, createInitialSessionState] at hn
      · intro sess' n hs'
        cases hs'
    | some s =>
      exact ⟨s, rfl, h s rfl, fun sess' n hs' hn => by cases hs'; exact hn⟩
  obtain ⟨sess, heq, htracked, hsame⟩ := hsess
  rw [heq]
  set msgs : List Message := sess.messages ++ [{ role := "user", content := m }] with hmsgs
  have hstate : (appendAssistantReply (applyTurn sess m) r).state = (applyTurn sess m).state := rfl
  have hmessages : (appendAssistantReply (applyTurn sess m) r).messages =
      msgs ++ [{ role := "assistant", content := r }] := rfl
  have hcn : (applyTurn sess m).state.context.clientName =
      match extractClientName msgs with
      | some x => some x
      | none => sess.state.context.clientName := by
    rw [applyTurn_state]
    rw [show (maybeTransition (mergeImportanceRating (mergeClientName
        (recordResponse sess.state m) msgs) m)).context =
        (mergeClientName (recordResponse sess.state m) msgs).context from by
      rw [maybeTransition_context, mergeImportanceRating_context]]
    exact mergeClientName_clientName _ _
  constructor
  · intro n hn
    rw [hstate, hcn] at hn
    rw [hmessages]
    cases he : extractClientName msgs with
    | some x =>
      rw [he] at hn
      cases hn
      exact extractClientName_append _ _ _ he
    | none =>
      rw [he] at hn
      have := htracked n hn
      have : extractClientName msgs = some n := extractClientName_append _ _ _ this
      rw [he] at this
      cases this
  · intro sess' n hs' hn
    have hn' : sess.state.context.clientName = some n := hsame sess' n hs' hn
    have hext : extractClientName msgs = some n :=
      extractClientName_append _ _ _ (htracked n hn')
    rw [hstate, hcn, hext]

/-- `runTurns` preserves the linking invariant. -/
lemma runTurns_tracked (turns : List (String × String)) :
    ∀ store : Option ChatSession, storeTracked store → storeTracked (runTurns store turns) := by
  induction turns with
  | nil => intro store h; exact h
  | cons t rest ih =>
    intro store h
    have hstep := processChatTurn_clientName store t.1 t.2 h
    exact ih _ (fun sess hs => by cases hs; exact hstep.1)

/-- Once populated, `clientName` survives any further sequence of turns. -/
lemma runTurns_clientName_stable (turns : List (String × String)) :
    ∀ (sess : ChatSession) (n : String), clientNameTracked sess →
      sess.state.context.clientName = some n →
      ∃ sess', runTurns (some sess) turns = some sess' ∧
        sess'.state.context.clientName = some n := by
  induction turns with
  | nil => intro sess n _ hn; exact ⟨sess, rfl, hn⟩
  | cons t rest ih =>
    intro sess n htr hn
    have hs : storeTracked (some sess) := fun s hs => by cases hs; exact htr
    have hstep := processChatTurn_clientName (some sess) t.1 t.2 hs
    have htr' : clientNameTracked (processChatTurn (some sess) t.1 t.2) := hstep.1
    have hn' := hstep.2 sess n rfl hn
    exact ih _ n htr' hn'

lemma runTurns_append (start : Option ChatSession) (t₁ t₂ : List (String × String)) :
    runTurns start (t₁ ++ t₂) = runTurns (runTurns start t₁) t₂ := by
  simp [runTurns, List.foldl_append]

/-- Claim C6: once `clientName` is non-null at the end of some turn, it has
the same value at the end of every later turn of the session — later runs of
the name extractor over the extended history never overwrite it. -/
theorem claim_C6_client_name_write_once (start : Option ChatSession)
    (hstart : start = none ∨ start = some newEmptySession)
    (turns₁ turns₂ : List (String × String)) (sess₁ : ChatSession) (n : String)
    (h1 : runTurns start turns₁ = some sess₁)
    (hn : sess₁.state.context.clientName = some n) :
    ∃ sess₂, runTurns start (turns₁ ++ turns₂) = some sess₂ ∧
      sess₂.state.context.clientName = some n := by
  have hstart' : storeTracked start := by
    rcases hstart with h | h <;> subst h
    · intro sess hs
      cases hs
    · intro sess hs
      cases hs
      intro n hn
      simp [newEmptySession, createInitialSessionState] at hn
  have htr : storeTracked (runTurns start turns₁) := runTurns_tracked _ _ hstart'
  rw [runTurns_append, h1]
  exact runTurns_clientName_stable turns₂ sess₁ n (htr sess₁ h1) hn

/-- Witness for C6: a first turn introduces the name `Ира`; a later turn does
not change it. -/
theorem claim_C6_client_name_write_once_witness :
    ∃ sess₂, runTurns none
        ([("привет, меня зовут Ира", "здравствуй")] ++ [("я передумал", "хорошо")]) = some sess₂ ∧
      sess₂.state.context.clientName = some "Ира" :=
  claim_C6_client_name_write_once none (Or.inl rfl) _ _
    (processChatTurn none "привет, меня зовут Ира" "здравствуй") "Ира" rfl (by decide)

/-! ## Claim C7: the importance-rating extractor -/

/-- Acceptance filter of the extractor: a pattern result counts only when
its value lies in `[1,10]`. -/
def ratingFilter (o : Option Nat) : Option Nat :=
  o.bind fun num => if 1 ≤ num ∧ num ≤ 10 then some num else none

/-- Modelled from the spec's words, for comparison with the source (claim
C7): "first matching pattern wins" combined with "accepts only integers in
[1,10]" — the first pattern that matches at all determines the outcome, and
an out-of-range value yields null instead of falling through. -/
def firstMatchRating : List (Option Nat) → Option Nat
  | [] => none
  | none :: rest => firstMatchRating rest
  | some num :: _ => if 1 ≤ num ∧ num ≤ 10 then some num else none

/-- Modelled from the spec's words, for comparison with the source (claim
C7): the extractor as the spec sentence reads. -/
def extractImportanceRatingFirstMatch (message : String) : Option Nat :=
  firstMatchRating (ratingPatternResults message)

lemma ratingLoop_range (l : List (Option Nat)) (n : Nat)
    (h : ratingLoop l = some n) : 1 ≤ n ∧ n ≤ 10 := by
  induction l with
  | nil => simp [ratingLoop] at h
  | cons o rest ih =>
    cases o with
    | none => exact ih h
    | some num =>
      unfold ratingLoop at h
      split at h
      · cases h
        assumption
      · exact ih h

lemma ratingLoop_first (i : Nat) :
    ∀ (l : List (Option Nat)) (n : Nat),
      (∀ o ∈ l.take i, ratingFilter o = none) →
      l.get? i = some (some n) → 1 ≤ n → n ≤ 10 →
      ratingLoop l = some n := by
  induction i with
  | zero =>
    intro l n _ hi h1 h10
    cases l with
    | nil => cases hi
    | cons o rest =>
      simp only [List.get?] at hi
      cases hi
      simp [ratingLoop, h1, h10]
  | succ i ih =>
    intro l n hprev hi h1 h10
    cases l with
    | nil => cases hi
    | cons o rest =>
      have hrest : ∀ o' ∈ rest.take i, ratingFilter o' = none := by
        intro o' ho'
        exact hprev o' (by simp [List.take_cons, ho'])
      have hhead : ratingFilter o = none := hprev o (by simp [List.take_cons])
      have htail : ratingLoop rest = some n := ih rest n hrest hi h1 h10
      cases o with
      | none => exact htail
      | some num =>
        simp only [ratingFilter, Option.bind] at hhead
        unfold ratingLoop
        split
        · split at hhead
          · cases hhead
          · omega
        · exact htail

/-- Claim C7 counterexample: on `"на 5, 11 из 10"` the first pattern
(`N из 10`) matches with the out-of-range value 11, yet the extractor
returns 5 from the second pattern — under the claim's first-matching-pattern
rule the result would have been null, so the extractor and the claimed rule
disagree at this input. -/
theorem claim_C7_counterexample :
    ratingPatternResults "на 5, 11 из 10" = [some 11, some 5, none, none] ∧
    extractImportanceRating "на 5, 11 из 10" = some 5 ∧
    extractImportanceRatingFirstMatch "на 5, 11 из 10" = none := by
  refine ⟨?_, ?_, ?_⟩ <;> decide

/-- Claim C7 as amended: the extractor returns null or an integer in
`[1,10]`, and the patterns are tried in the fixed source order where the
first pattern whose matched value lies in `[1,10]` wins (a match with an
out-of-range value falls through to the later patterns). -/
theorem claim_C7_amended (message : String) :
    (∀ n, extractImportanceRating message = some n → 1 ≤ n ∧ n ≤ 10) ∧
    (∀ i n, (∀ o ∈ (ratingPatternResults message).take i, ratingFilter o = none) →
      (ratingPatternResults message).get? i = some (some n) → 1 ≤ n → n ≤ 10 →
      extractImportanceRating message = some n) := by
  constructor
  · intro n h
    exact ratingLoop_range _ n h
  · intro i n hprev hi h1 h10
    exact ratingLoop_first i _ n hprev hi h1 h10

/-- Witness for the amended C7: `"8 из 10"` is matched by the first pattern
in range, and the extractor returns 8 — which lies in `[1,10]`. -/
theorem claim_C7_amended_witness :
    extractImportanceRating "8 из 10" = some 8 ∧ 1 ≤ 8 ∧ 8 ≤ 10 :=
  ⟨(claim_C7_amended "8 из 10").2 0 8 (by simp) (by decide) (by decide) (by decide),
   (claim_C7_amended "8 из 10").1 8 (by decide)⟩

/-! ## Claim C8: malformed input is rejected without state mutation -/

/-- Claim C8: a turn whose utterance is empty (schema gate) or exceeds the
body size bound (transport gate, modelled from the spec) is rejected: the
caller receives an input error and the session store is left untouched. -/
theorem claim_C8_malformed_input_rejected (store : Option ChatSession)
    (message reply : String)
    (h : message = "" ∨ MAX_BODY_BYTES < message.utf8ByteSize) :
    (handleChatRequest store message reply).1 = store ∧
    ∃ e, (handleChatRequest store message reply).2 = ChatOutcome.rejected e := by
  rcases h with h | h
  · subst h
    exact ⟨rfl, "Invalid request", rfl⟩
  · have hb : ¬ (bodyWithinSizeLimit message = true) := by
      simp only [bodyWithinSizeLimit, decide_eq_true_eq]
      omega
    refine ⟨?_, "PayloadTooLarge", ?_⟩ <;> simp [handleChatRequest, hb]

/-- Witness for C8: the empty utterance is rejected and the store (here: no
session yet) is unchanged. -/
theorem claim_C8_malformed_input_rejected_witness :
    (handleChatRequest none "" "reply").1 = none ∧
    ∃ e, (handleChatRequest none "" "reply").2 = ChatOutcome.rejected e :=
  claim_C8_malformed_input_rejected none "" "reply" (Or.inl rfl)

/-! ## Claim C9: the first-turn scenario -/

/-- Claim C9 counterexample: on the literal first utterance `"I keep putting
off writing my thesis"` the classifier assigns the `general` fallback, not
`procrastination` (the keyword table is Russian), and after the turn the
response count is 0, not 1, because the first turn always transitions out of
`start_session` (minimum 1 met, original request recorded) and the counter
resets. -/
theorem claim_C9_counterexample :
    (processChatTurn none "I keep putting off writing my thesis" "").state.requestType =
      some RequestType.general ∧
    (processChatTurn none "I keep putting off writing my thesis" "").state.requestType ≠
      some RequestType.procrastination ∧
    (processChatTurn none "I keep putting off writing my thesis" "").state.stageResponseCount = 0 ∧
    (processChatTurn none "I keep putting off writing my thesis" "").state.stageResponseCount ≠ 1 := by
  refine ⟨?_, ?_, ?_, ?_⟩ <;> decide

/-- Claim C9 as amended: a first turn whose utterance matches the
procrastination keywords (Russian `"Я всё время откладываю написание
диссертации"`) pins the procrastination category; since the new-session
branch records the original request and `start_session`'s minimum of 1 is
met, the first turn advances `start_session → collect_context`, leaving the
new stage's response count at 0 and `start_session` in the history. -/
theorem claim_C9_amended :
    (processChatTurn none "Я всё время откладываю написание диссертации" "").state.requestType =
      some RequestType.procrastination ∧
    (processChatTurn none "Я всё время откладываю написание диссертации" "").state.currentStage =
      MPTStage.collect_context ∧
    (processChatTurn none "Я всё время откладываю написание диссертации" "").state.stageResponseCount = 0 ∧
    (processChatTurn none "Я всё время откладываю написание диссертации" "").state.stageHistory =
      [MPTStage.start_session] := by
  refine ⟨?_, ?_, ?_, ?_⟩ <;> decide

/-! ## Claim C10: the never-written target-fact fields -/

/-- The context fields that no core operation ever assigns. -/
def factFieldsNull (ctx : TherapyContext) : Prop :=
  ctx.clarifiedRequest = none ∧ ctx.currentStrategy = none ∧ ctx.deepNeed = none ∧
  ctx.bodyLocation = none ∧ ctx.metaphor = none ∧
  ctx.metaPositionData.insight = none ∧ ctx.firstStep = none

lemma factFieldsNull_mergeClientName (st : SessionState) (ms : List Message)
    (h : factFieldsNull st.context) : factFieldsNull (mergeClientName st ms).context := by
  unfold mergeClientName
  cases extractClientName ms with
  | none => exact h
  | some x => exact h

/-- One `/api/chat` turn keeps the never-written fields null. -/
lemma processChatTurn_factFields (store : Option ChatSession) (m r : String)
    (h : ∀ sess, store = some sess → factFieldsNull sess.state.context) :
    factFieldsNull (processChatTurn store m r).state.context := by
  have hsess : ∃ sess : ChatSession, processChatTurn store m r =
      appendAssistantReply (applyTurn sess m) r ∧ factFieldsNull sess.state.context := by
    cases store with
    | none =>
      refine ⟨{ messages := [], state := newSessionState m }, rfl, ?_⟩
      simp [newSessionState, createInitialSessionState, factFieldsNull]
    | some s => exact ⟨s, rfl, h s rfl⟩
  obtain ⟨sess, heq, hnull⟩ := hsess
  rw [heq]
  show factFieldsNull (applyTurn sess m).state.context
  rw [applyTurn_state, maybeTransition_context, mergeImportanceRating_context]
  exact factFieldsNull_mergeClientName _ _ hnull

/-- `runTurns` keeps the never-written fields null. -/
lemma runTurns_factFields (turns : List (String × String)) :
    ∀ store : Option ChatSession,
      (∀ sess, store = some sess → factFieldsNull sess.state.context) →
      ∀ sess, runTurns store turns = some sess → factFieldsNull sess.state.context := by
  induction turns with
  | nil =>
    intro store h sess hs
    exact h sess hs
  | cons t rest ih =>
    intro store h sess hs
    exact ih _ (fun s hst => by cases hst; exact processChatTurn_factFields store t.1 t.2 h) sess hs

/-- With the target fact null, readiness at a fact-tested stage is exactly
the turn-count ceiling. -/
lemma factOnly_ceiling_only (st : SessionState) (hnull : factFieldsNull st.context)
    (hmem : st.currentStage ∈ factOnlyStages) :
    (shouldTransitionToNextStage st = true ↔
      stageCeiling st.currentStage ≤ st.stageResponseCount) := by
  rcases st with ⟨stage, count, qi, hist, ctx, rt, ir, lcr, idk, mo, ic, ss, sc⟩
  rcases hnull with ⟨h1, h2, h3, h4, h5, h6, h7⟩
  simp only at h1 h2 h3 h4 h5 h6 h7
  simp only [factOnlyStages, List.mem_cons, List.not_mem_nil, or_false] at hmem
  rcases hmem with h | h | h | h | h | h | h <;> subst h <;>
    simp only [shouldTransitionToNextStage, MPT_STAGE_CONFIG, stageCeiling,
      h1, h2, h3, h4, h5, h6, h7, Option.isSome_none, Bool.false_or] <;>
    split_ifs with hc <;>
    simp only [Bool.false_eq_true, false_iff, decide_eq_true_eq, not_le] <;>
    omega

/-- Claim C10: throughout every session the fields `clarifiedRequest`,
`currentStrategy`, `deepNeed`, `bodyLocation`, `metaphor`,
`metaPositionData.insight` and `firstStep` remain null, so each stage whose
readiness predicate tests one of them can advance only through its
response-count ceiling, never through the fact-populated branch. -/
theorem claim_C10_fact_fields_never_written (start : Option ChatSession)
    (hstart : start = none ∨ start = some newEmptySession)
    (turns : List (String × String)) (sess : ChatSession)
    (h : runTurns start turns = some sess) :
    factFieldsNull sess.state.context ∧
    (sess.state.currentStage ∈ factOnlyStages →
      (shouldTransitionToNextStage sess.state = true ↔
        stageCeiling sess.state.currentStage ≤ sess.state.stageResponseCount)) := by
  have hstart' : ∀ s, start = some s → factFieldsNull s.state.context := by
    rcases hstart with hs | hs <;> subst hs
    · intro s hs
      cases hs
    · intro s hs
      cases hs
      simp [newEmptySession, createInitialSessionState, factFieldsNull]
  have hnull : factFieldsNull sess.state.context := runTurns_factFields turns start hstart' sess h
  exact ⟨hnull, fun hmem => factOnly_ceiling_only sess.state hnull hmem⟩

/-- Witness for C10 after one concrete turn. -/
theorem claim_C10_fact_fields_never_written_witness :
    factFieldsNull (processChatTurn none "привет" "здравствуй").state.context ∧
    ((processChatTurn none "привет" "здравствуй").state.currentStage ∈ factOnlyStages →
      (shouldTransitionToNextStage (processChatTurn none "привет" "здравствуй").state = true ↔
        stageCeiling (processChatTurn none "привет" "здравствуй").state.currentStage ≤
          (processChatTurn none "привет" "здравствуй").state.stageResponseCount)) :=
  claim_C10_fact_fields_never_written none (Or.inl rfl) [("привет", "здравствуй")]
    (processChatTurn none "привет" "здравствуй") rfl

end MPT
